import Mathlib

/-!
Verification of the SQL-Tutorial-2 repository: a shallow embedding of the
SQLAlchemy data model (`models.py`), the synchronous query library and
demonstration driver (`Part8/main.py`), the asynchronous Order-User join
(`Part9/main.py`), and the aiogram user-onboarding handler
(`Part10/.../handlers/user.py`), together with proofs of the specified
properties.

Tables are embedded as Lean structures, the database as lists of rows
(SQL bag semantics), and each query function as a Lean function translated
from the corresponding SQLAlchemy statement: joins are nested loops in the
statement's table order, outer joins emit a NULL-padded row when the match
set is empty, and `returning`-clause inserts yield the generated keys.
-/

/-- A calendar date / timestamp value, standing in for Python `datetime` and
the SQL TIMESTAMP type.  `main.py` only ever supplies dates; server defaults
(`func.now()`) are modelled by a clock carried in the database state. -/
structure Date where
  year : Nat
  month : Nat
  day : Nat
deriving DecidableEq, Repr

/-- `users` table row (models.py, class User): telegram_id BIGINT primary key,
full_name VARCHAR(255) not null, username VARCHAR(255) nullable,
language_code VARCHAR(10) not null, created_at TIMESTAMP server_default now(),
referrer_id BIGINT nullable FK users.telegram_id ON DELETE SET NULL. -/
structure UserRow where
  telegram_id : Int
  full_name : String
  username : Option String
  language_code : String
  created_at : Date
  referrer_id : Option Int
deriving DecidableEq, Repr

/-- `orders` table row (models.py, class Order): order_id Integer primary key
autoincrement, user_id BIGINT not null FK users.telegram_id ON DELETE CASCADE,
created_at TIMESTAMP server_default now(). -/
structure OrderRow where
  order_id : Nat
  user_id : Int
  created_at : Date
deriving DecidableEq, Repr

/-- `products` table row (models.py, class Product): product_id Integer primary
key autoincrement, title VARCHAR(255) not null, description VARCHAR(3000)
nullable, created_at TIMESTAMP server_default now(). -/
structure ProductRow where
  product_id : Nat
  title : String
  description : Option String
  created_at : Date
deriving DecidableEq, Repr

/-- `order_products` table row (models.py, class OrderProduct): order_id FK
orders.order_id ON DELETE CASCADE, product_id FK products.product_id
ON DELETE RESTRICT, composite primary key; quantity Integer not null. -/
structure OrderProductRow where
  order_id : Nat
  product_id : Nat
  quantity : Int
deriving DecidableEq, Repr

/-- The database state: the four tables, the autoincrement counters for the
two serial primary keys, and the clock used for `server_default=func.now()`. -/
structure DB where
  users : List UserRow
  orders : List OrderRow
  products : List ProductRow
  order_products : List OrderProductRow
  next_order_id : Nat
  next_product_id : Nat
  now : Date
deriving DecidableEq, Repr

/-- A freshly created database: empty tables, serial counters at 1. -/
def DB.empty (now : Date) : DB :=
  { users := [], orders := [], products := [], order_products := []
    next_order_id := 1, next_product_id := 1, now := now }

namespace Part8

/-- `create_user` (Part8 main.py lines 12-21): INSERT INTO users VALUES
(telegram_id, full_name, username, language_code, created_at, referrer_id),
with referrer_id defaulting to NULL. -/
def create_user (db : DB) (telegram_id : Int) (full_name : String)
    (username : Option String) (language_code : String) (created_at : Date)
    (referrer_id : Option Int := none) : DB :=
  { db with users := db.users ++
      [{ telegram_id := telegram_id, full_name := full_name,
         username := username, language_code := language_code,
         created_at := created_at, referrer_id := referrer_id }] }

/-- `select_users_with_referrer` (Part8 main.py lines 24-36): SELECT
users.full_name AS user, referrer.full_name AS referrer FROM users JOIN users
AS referrer ON referrer.telegram_id = users.referrer_id (inner join; a NULL
referrer_id matches nothing). -/
def select_users_with_referrer (db : DB) : List (String × String) :=
  db.users.flatMap fun u =>
    (db.users.filter fun r => u.referrer_id = some r.telegram_id).map
      fun r => (u.full_name, r.full_name)

/-- `select_all_users_and_some_referrers` (Part8 main.py lines 39-51): the same
join with `isouter=True`, i.e. LEFT OUTER JOIN: a user with no matching
referrer still produces a row, with the referrer column NULL. -/
def select_all_users_and_some_referrers (db : DB) :
    List (String × Option String) :=
  db.users.flatMap fun u =>
    let ms := db.users.filter fun r => u.referrer_id = some r.telegram_id
    if ms.isEmpty then [(u.full_name, (none : Option String))]
    else ms.map fun r => (u.full_name, some r.full_name)

/-- `select_some_users_and_all_referrers` (Part8 main.py lines 54-69): right
join emulated as a LEFT OUTER JOIN with the sides swapped — the referrer alias
is the preserved (left) side, User the matched side, ON referrer.telegram_id =
users.referrer_id; the user column is NULL where nobody refers to the row. -/
def select_some_users_and_all_referrers (db : DB) :
    List (Option String × String) :=
  db.users.flatMap fun r =>
    let ms := db.users.filter fun u => u.referrer_id = some r.telegram_id
    if ms.isEmpty then [((none : Option String), r.full_name)]
    else ms.map fun u => (some u.full_name, r.full_name)

/-- `create_new_order_for_user` (Part8 main.py lines 72-79): INSERT INTO orders
(user_id) VALUES (:user_id) RETURNING order_id; created_at is filled by the
server default and order_id by the sequence. -/
def create_new_order_for_user (db : DB) (user_id : Int) : DB × Nat :=
  let oid := db.next_order_id
  ({ db with
      orders := db.orders ++ [{ order_id := oid, user_id := user_id,
                                created_at := db.now }]
      next_order_id := oid + 1 }, oid)

/-- `show_users_orders` (Part8 main.py lines 82-89): SELECT orders.order_id,
users.full_name FROM orders JOIN users — the ON clause is inferred from the
single foreign key orders.user_id -> users.telegram_id. -/
def show_users_orders (db : DB) : List (Nat × String) :=
  db.orders.flatMap fun o =>
    (db.users.filter fun u => u.telegram_id = o.user_id).map
      fun u => (o.order_id, u.full_name)

/-- The {title, description} records fed to the bulk product insert. -/
structure ProductInfo where
  title : String
  description : Option String
deriving DecidableEq, Repr

/-- `create_new_products` (Part8 main.py lines 92-101): bulk INSERT INTO
products VALUES (...), (...) RETURNING product_id; the generated identifiers
are consecutive sequence values, returned in input order. -/
def create_new_products (db : DB) (products_info : List ProductInfo) :
    DB × List Nat :=
  let ids := (List.range products_info.length).map fun i => db.next_product_id + i
  ({ db with
      products := db.products ++
        (products_info.zip ids).map fun pi =>
          { product_id := pi.2, title := pi.1.title,
            description := pi.1.description, created_at := db.now }
      next_product_id := db.next_product_id + products_info.length }, ids)

/-- `add_products_to_order` (Part8 main.py lines 104-112): executemany INSERT
INTO order_products (order_id, product_id, quantity) with order_id fixed and
(product_id, quantity) bound per input record. -/
def add_products_to_order (db : DB) (order_id : Nat)
    (product_data : List (Nat × Int)) : DB :=
  { db with order_products := db.order_products ++
      product_data.map fun pd =>
        { order_id := order_id, product_id := pd.1, quantity := pd.2 } }

/-- `show_all_users_products` (Part8 main.py lines 115-128): SELECT
orders.order_id, products.title, users.full_name FROM order_products JOIN
products ON products.product_id = order_products.product_id JOIN orders ON
orders.order_id = order_products.order_id JOIN users ON users.telegram_id =
orders.user_id. -/
def show_all_users_products (db : DB) : List (Nat × String × String) :=
  db.order_products.flatMap fun op =>
    (db.products.filter fun p => p.product_id = op.product_id).flatMap fun p =>
      (db.orders.filter fun o => o.order_id = op.order_id).flatMap fun o =>
        (db.users.filter fun u => u.telegram_id = o.user_id).map fun u =>
          (o.order_id, p.title, u.full_name)

/-- One observable database action of the demonstration driver: an insert with
its literal values, a select with the rows it returned, or a commit. -/
inductive Event where
  | insertUser (telegram_id : Int) (full_name : String) (username : Option String)
      (language_code : String) (created_at : Date) (referrer_id : Option Int)
  | usersWithReferrer (rows : List (String × String))
  | allUsersAndSomeReferrers (rows : List (String × Option String))
  | someUsersAndAllReferrers (rows : List (Option String × String))
  | insertOrder (user_id : Int) (returned_order_id : Nat)
  | usersOrders (rows : List (Nat × String))
  | insertProducts (products_info : List ProductInfo) (returned_ids : List Nat)
  | insertOrderProducts (order_id : Nat) (product_data : List (Nat × Int))
  | usersProducts (rows : List (Nat × String × String))
  | commit
deriving DecidableEq, Repr

/-- A SQLAlchemy session: statements act on the working state, `commit` makes
it the persistent state, and leaving the `with` block without committing rolls
the working state back.  The trace records every statement executed. -/
structure Session where
  persistent : DB
  working : DB
  trace : List Event
deriving DecidableEq, Repr

/-- Opening a session against the current database state. -/
def Session.start (db : DB) : Session :=
  { persistent := db, working := db, trace := [] }

/-- `session.commit()`: publish the working state. -/
def Session.commit (s : Session) : Session :=
  { s with persistent := s.working, trace := s.trace ++ [Event.commit] }

/-- Leaving the `with session_pool() as session:` block without a commit: the
working state is discarded and the database keeps its persistent state. -/
def Session.close (s : Session) : DB :=
  s.persistent

/-- `create_user(session, ...)` executed on a session. -/
def Session.run_create_user (s : Session) (telegram_id : Int) (full_name : String)
    (username : Option String) (language_code : String) (created_at : Date)
    (referrer_id : Option Int := none) : Session :=
  { s with
    working := create_user s.working telegram_id full_name username language_code
      created_at referrer_id
    trace := s.trace ++ [Event.insertUser telegram_id full_name username
      language_code created_at referrer_id] }

/-- `select_users_with_referrer(session).all()` executed on a session. -/
def Session.run_users_with_referrer (s : Session) :
    Session × List (String × String) :=
  let rows := select_users_with_referrer s.working
  ({ s with trace := s.trace ++ [Event.usersWithReferrer rows] }, rows)

/-- `select_all_users_and_some_referrers(session).all()` on a session. -/
def Session.run_all_users_and_some_referrers (s : Session) :
    Session × List (String × Option String) :=
  let rows := select_all_users_and_some_referrers s.working
  ({ s with trace := s.trace ++ [Event.allUsersAndSomeReferrers rows] }, rows)

/-- `select_some_users_and_all_referrers(session).all()` on a session. -/
def Session.run_some_users_and_all_referrers (s : Session) :
    Session × List (Option String × String) :=
  let rows := select_some_users_and_all_referrers s.working
  ({ s with trace := s.trace ++ [Event.someUsersAndAllReferrers rows] }, rows)

/-- `create_new_order_for_user(session, user_id)` on a session. -/
def Session.run_create_order (s : Session) (user_id : Int) : Session × Nat :=
  let r := create_new_order_for_user s.working user_id
  ({ s with working := r.1
            trace := s.trace ++ [Event.insertOrder user_id r.2] }, r.2)

/-- `show_users_orders(session)` on a session. -/
def Session.run_users_orders (s : Session) : Session × List (Nat × String) :=
  let rows := show_users_orders s.working
  ({ s with trace := s.trace ++ [Event.usersOrders rows] }, rows)

/-- `create_new_products(session, products_info)` on a session. -/
def Session.run_create_products (s : Session) (products_info : List ProductInfo) :
    Session × List Nat :=
  let r := create_new_products s.working products_info
  ({ s with working := r.1
            trace := s.trace ++ [Event.insertProducts products_info r.2] }, r.2)

/-- `add_products_to_order(session, order_id, product_data)` on a session. -/
def Session.run_add_products_to_order (s : Session) (order_id : Nat)
    (product_data : List (Nat × Int)) : Session :=
  { s with working := add_products_to_order s.working order_id product_data
           trace := s.trace ++ [Event.insertOrderProducts order_id product_data] }

/-- `show_all_users_products(session)` on a session. -/
def Session.run_users_products (s : Session) :
    Session × List (Nat × String × String) :=
  let rows := show_all_users_products s.working
  ({ s with trace := s.trace ++ [Event.usersProducts rows] }, rows)

/-- The demonstration driver `main` (Part8 main.py lines 131-214), run against
an initial database state: steps 1-10 in program order, inside one session
that is never committed.  The returned session carries the final working
state, the unchanged persistent state, and the full statement trace. -/
def main (db0 : DB) : Session :=
  let s := Session.start db0
  -- 1. Insert a new user
  let s := s.run_create_user 1 "John Doe" (some "johnny") "en" ⟨2020, 1, 1⟩
  -- 2. Insert a new user with a referrer
  let s := s.run_create_user 2 "Jane Doe" (some "jane") "en" ⟨2020, 1, 2⟩ (some 1)
  -- 3. Get full names of the user and the referrer
  let s := (s.run_users_with_referrer).1
  -- 4. All users and their referrers (left join)
  let s := (s.run_all_users_and_some_referrers).1
  -- 5. Some users and all referrers (emulated right join)
  let s := (s.run_some_users_and_all_referrers).1
  -- 6. Create a new order for user 1
  let r6 := s.run_create_order 1
  let s := r6.1
  let order_id := r6.2
  -- 7. Order id and user full name per order
  let s := (s.run_users_orders).1
  -- 8. Insert three products
  let r8 := s.run_create_products
    [{ title := "Product 1", description := some "Description 1" },
     { title := "Product 2", description := some "Description 2" },
     { title := "Product 3", description := some "Description 3" }]
  let s := r8.1
  let product_ids := r8.2
  -- 9. Attach the products to the order, quantity 1 each
  let s := s.run_add_products_to_order order_id
    (product_ids.map fun product_id => (product_id, 1))
  -- 10. Order id, product title and user full name per order product
  (s.run_users_products).1

end Part8

namespace Part9

/-- The Order-User join of the async `main` (Part9 main.py lines 23-33):
`select(Order.order_id, User.full_name).join(User)` awaited on an
AsyncSession — the statement is the same text as the synchronous one, executed
through the asynchronous engine. -/
def async_users_orders (db : DB) : List (Nat × String) :=
  db.orders.flatMap fun o =>
    (db.users.filter fun u => u.telegram_id = o.user_id).map
      fun u => (o.order_id, u.full_name)

end Part9

/-- Deletion of a user, applying the referential actions declared in models.py:
`orders.user_id` is ON DELETE CASCADE, so the user's orders are deleted;
`order_products.order_id` is ON DELETE CASCADE, so the rows of those orders
are deleted transitively; `users.referrer_id` is ON DELETE SET NULL, so users
referring to the deleted user keep their row with `referrer_id` cleared. -/
def deleteUser (db : DB) (t : Int) : DB :=
  { db with
    users := (db.users.filter fun u => u.telegram_id ≠ t).map fun u =>
      if u.referrer_id = some t then { u with referrer_id := none } else u
    orders := db.orders.filter fun o => o.user_id ≠ t
    order_products := db.order_products.filter fun op =>
      ¬ db.orders.any fun o => o.order_id == op.order_id && o.user_id == t }

/-- Deletion of a product: `order_products.product_id` is declared ON DELETE
RESTRICT in models.py, so the delete is rejected (`none`) while any
order_products row still references the product. -/
def deleteProduct (db : DB) (pid : Nat) : Option DB :=
  if db.order_products.any fun op => op.product_id == pid then none
  else some { db with products := db.products.filter fun p => p.product_id ≠ pid }

namespace Bot

/-- Modelled from the spec: the bot's user model module
(`tgbot.infrastucture.database.models.users`) is not under src/.  Per spec §3
it is structurally compatible with the standalone User schema; the language
preference is kept optional here because the handler forwards the inbound
message's possibly-absent language code. -/
structure BotUser where
  telegram_id : Int
  full_name : String
  username : Option String
  language_code : Option String
  created_at : Date
  referrer_id : Option Int
deriving DecidableEq, Repr

/-- The sender data carried by an inbound message (`message.from_user`). -/
structure TgFrom where
  id : Int
  full_name : String
  username : Option String
  language_code : Option String
deriving DecidableEq, Repr

/-- An inbound message event. -/
structure Message where
  from_user : TgFrom
deriving DecidableEq, Repr

/-- The bot-side database state: the users table and the clock used for the
`created_at` server default. -/
structure BotDB where
  users : List BotUser
  now : Date
deriving DecidableEq, Repr

/-- `session.get(User, id)`: primary-key lookup of a user row. -/
def sessionGet (db : BotDB) (id : Int) : Option BotUser :=
  db.users.find? fun u => u.telegram_id == id

/-- Modelled from the spec: `create_user` from
`tgbot.infrastucture.database.functions.users` is not under src/.  Per spec
§4.4 it inserts a row with the sender identifier as primary key, display name,
handle and language preference; `created_at` is filled by the server default
and no referrer is set. -/
def create_user (db : BotDB) (telegram_id : Int) (full_name : String)
    (username : Option String) (language_code : Option String) : BotDB :=
  { db with users := db.users ++
      [{ telegram_id := telegram_id, full_name := full_name,
         username := username, language_code := language_code,
         created_at := db.now, referrer_id := none }] }

/-- Python str() of an optional string: an absent value prints as "None". -/
def pyStr : Option String → String
  | none => "None"
  | some s => s

/-- Rendering of the stored creation timestamp in the reply text. -/
def dateStr (d : Date) : String :=
  toString d.year ++ "-" ++ toString d.month ++ "-" ++ toString d.day

/-- Side-effect counts of one handler invocation: user-row reads
(`session.get`), row inserts, and commits. -/
structure Effects where
  reads : Nat
  inserts : Nat
  commits : Nat
deriving DecidableEq, Repr

/-- The reply text composed by `user_start` (user.py lines 23-29): the
concatenated f-strings over the fetched user row. -/
def replyText (user : BotUser) : String :=
  "Hello, user. \n" ++ "Your info is here: \n\n" ++
  user.full_name ++ " (@" ++ pyStr user.username ++ ").\n" ++
  "Language: " ++ pyStr user.language_code ++ ".\n" ++
  "Created at: " ++ dateStr user.created_at ++ "."

/-- `user_start` (Part10 user.py lines 9-29): look the sender up by id; if
absent, create the row and commit; look up again (unconditionally); compose
and send the profile reply.  Returns the database after the invocation, the
reply text, and the side-effect counts; `none` models the unhandled attribute
access that would raise if the second lookup found no row. -/
def user_start (db : BotDB) (message : Message) :
    Option (BotDB × String × Effects) :=
  let f := message.from_user
  let step : BotDB × Effects :=
    match sessionGet db f.id with
    | some _ => (db, { reads := 1, inserts := 0, commits := 0 })
    | none =>
        (create_user db f.id f.full_name f.username f.language_code,
         { reads := 1, inserts := 1, commits := 1 })
  match sessionGet step.1 f.id with
  | none => none
  | some user =>
      some (step.1, replyText user, { step.2 with reads := step.2.reads + 1 })

end Bot

/-- The two-user reference state of spec §8 (properties 3-5): user 1 with no
referrer, user 2 referred by user 1. -/
def dbTwo : DB :=
  { users :=
      [{ telegram_id := 1, full_name := "John Doe", username := some "johnny",
         language_code := "en", created_at := ⟨2020, 1, 1⟩, referrer_id := none },
       { telegram_id := 2, full_name := "Jane Doe", username := some "jane",
         language_code := "en", created_at := ⟨2020, 1, 2⟩,
         referrer_id := some 1 }]
    orders := [], products := [], order_products := []
    next_order_id := 1, next_product_id := 1, now := ⟨2024, 1, 1⟩ }

/-- User 2 of the two-user reference state. -/
def rowJane : UserRow :=
  { telegram_id := 2, full_name := "Jane Doe", username := some "jane",
    language_code := "en", created_at := ⟨2020, 1, 2⟩, referrer_id := some 1 }

/-- A state with one order of user 1 holding product 1, used to exercise the
declared deletion rules. -/
def dbDel : DB :=
  { users :=
      [{ telegram_id := 1, full_name := "John Doe", username := none,
         language_code := "en", created_at := ⟨2020, 1, 1⟩, referrer_id := none },
       { telegram_id := 2, full_name := "Jane Doe", username := none,
         language_code := "en", created_at := ⟨2020, 1, 2⟩,
         referrer_id := some 1 }]
    orders := [{ order_id := 1, user_id := 1, created_at := ⟨2020, 1, 3⟩ }]
    products := [{ product_id := 1, title := "Product 1", description := none,
                   created_at := ⟨2020, 1, 3⟩ }]
    order_products := [{ order_id := 1, product_id := 1, quantity := 1 }]
    next_order_id := 2, next_product_id := 2, now := ⟨2024, 1, 1⟩ }

/-- An empty bot-side database. -/
def botDB0 : Bot.BotDB := { users := [], now := ⟨2024, 1, 1⟩ }

/-- An inbound message from a previously-unseen sender. -/
def msgAda : Bot.Message :=
  { from_user := { id := 42, full_name := "Ada Lovelace", username := some "ada",
                   language_code := some "en" } }

/-! ## Helper lemmas -/

/-- Mapping a function of the first component over a zip of lists of
sufficient length projects to a map over the first list. -/
theorem zip_map_fst_fn {α β γ : Type} (g : α → γ) :
    ∀ (l1 : List α) (l2 : List β), l1.length ≤ l2.length →
      (l1.zip l2).map (fun p => g p.1) = l1.map g
  | [], _, _ => rfl
  | a :: t1, [], h => by simp at h
  | a :: t1, b :: t2, h => by
      simp [List.zip_cons_cons, zip_map_fst_fn g t1 t2 (by simpa using h)]

/-- Looking up a freshly inserted user by its primary key finds exactly the
inserted row, provided the key was previously absent. -/
theorem sessionGet_create_user (db : Bot.BotDB) (telegram_id : Int)
    (full_name : String) (username : Option String)
    (language_code : Option String)
    (h : Bot.sessionGet db telegram_id = none) :
    Bot.sessionGet
        (Bot.create_user db telegram_id full_name username language_code)
        telegram_id =
      some { telegram_id := telegram_id, full_name := full_name,
             username := username, language_code := language_code,
             created_at := db.now, referrer_id := none } := by
  unfold Bot.sessionGet at h
  unfold Bot.sessionGet Bot.create_user
  simp [List.find?_append, h, List.find?]

/-! ## Claim theorems -/

/-- Claim C1: bot onboarding is idempotent.  From a first contact, the first
`user_start` invocation inserts exactly one user row with one commit and two
primary-key reads; the second invocation performs no insert and no commit,
still reads the row, leaves the database unchanged, and produces the same
reply text (hence the same full name, handle, language code and creation
timestamp). -/
theorem bot_onboarding_idempotent (db : Bot.BotDB) (m : Bot.Message)
    (h : Bot.sessionGet db m.from_user.id = none) :
    ∃ db1 reply1 e1,
      Bot.user_start db m = some (db1, reply1, e1) ∧
      db1.users.length = db.users.length + 1 ∧
      e1.reads = 2 ∧ e1.inserts = 1 ∧ e1.commits = 1 ∧
      ∃ e2, Bot.user_start db1 m = some (db1, reply1, e2) ∧
        e2.inserts = 0 ∧ e2.commits = 0 ∧ 1 ≤ e2.reads := by
  have hins := sessionGet_create_user db m.from_user.id m.from_user.full_name
    m.from_user.username m.from_user.language_code h
  refine ⟨Bot.create_user db m.from_user.id m.from_user.full_name
      m.from_user.username m.from_user.language_code,
    Bot.replyText
      { telegram_id := m.from_user.id, full_name := m.from_user.full_name,
        username := m.from_user.username,
        language_code := m.from_user.language_code,
        created_at := db.now, referrer_id := none },
    ⟨2, 1, 1⟩, ?_, ?_, rfl, rfl, rfl, ⟨2, 0, 0⟩, ?_, rfl, rfl, by norm_num⟩
  · simp [Bot.user_start, h, hins]
  · simp [Bot.create_user]
  · simp [Bot.user_start, hins]

/-- Witness for C1: running `user_start` twice from the empty database on a
concrete message, with the first-contact hypothesis discharged by `rfl`. -/
theorem bot_onboarding_idempotent_witness :
    ∃ db1 reply1 e1,
      Bot.user_start botDB0 msgAda = some (db1, reply1, e1) ∧
      db1.users.length = botDB0.users.length + 1 ∧
      e1.reads = 2 ∧ e1.inserts = 1 ∧ e1.commits = 1 ∧
      ∃ e2, Bot.user_start db1 msgAda = some (db1, reply1, e2) ∧
        e2.inserts = 0 ∧ e2.commits = 0 ∧ 1 ≤ e2.reads :=
  bot_onboarding_idempotent botDB0 msgAda rfl

/-- Claim C2: on first contact, `user_start` inserts exactly one new user row
whose identifier, display name, handle and language preference are copied
verbatim from the inbound message (with the creation timestamp from the server
default), and replies with a text containing the stored full name, the handle
rendered as "@handle", the language code, and the creation timestamp. -/
theorem bot_first_contact_verbatim (db : Bot.BotDB) (m : Bot.Message)
    (h : Bot.sessionGet db m.from_user.id = none) :
    ∃ e : Bot.Effects,
      Bot.user_start db m = some
        ({ db with users := db.users ++
            [{ telegram_id := m.from_user.id,
               full_name := m.from_user.full_name,
               username := m.from_user.username,
               language_code := m.from_user.language_code,
               created_at := db.now, referrer_id := none }] },
         "Hello, user. \n" ++ "Your info is here: \n\n" ++
           m.from_user.full_name ++ " (@" ++ Bot.pyStr m.from_user.username ++
           ").\n" ++ "Language: " ++ Bot.pyStr m.from_user.language_code ++
           ".\n" ++ "Created at: " ++ Bot.dateStr db.now ++ ".",
         e) ∧ e.inserts = 1 ∧ e.commits = 1 := by
  refine ⟨⟨2, 1, 1⟩, ?_, rfl, rfl⟩
  have hins := sessionGet_create_user db m.from_user.id m.from_user.full_name
    m.from_user.username m.from_user.language_code h
  simp only [Bot.user_start, h]
  rw [hins]
  simp [Bot.replyText, Bot.create_user]

/-- Witness for C2: first contact on the empty database with a concrete
message, the hypothesis discharged by `rfl`. -/
theorem bot_first_contact_verbatim_witness :
    ∃ e : Bot.Effects,
      Bot.user_start botDB0 msgAda = some
        ({ botDB0 with users := botDB0.users ++
            [{ telegram_id := msgAda.from_user.id,
               full_name := msgAda.from_user.full_name,
               username := msgAda.from_user.username,
               language_code := msgAda.from_user.language_code,
               created_at := botDB0.now, referrer_id := none }] },
         "Hello, user. \n" ++ "Your info is here: \n\n" ++
           msgAda.from_user.full_name ++ " (@" ++
           Bot.pyStr msgAda.from_user.username ++ ").\n" ++ "Language: " ++
           Bot.pyStr msgAda.from_user.language_code ++ ".\n" ++
           "Created at: " ++ Bot.dateStr botDB0.now ++ ".",
         e) ∧ e.inserts = 1 ∧ e.commits = 1 :=
  bot_first_contact_verbatim botDB0 msgAda rfl

/-- Claim C3: on a database whose users table holds exactly user 1 "John Doe"
with no referrer and user 2 "Jane Doe" referred by user 1, the inner-join
query returns exactly one row, user "Jane Doe" with referrer "John Doe", and
"John Doe" never appears in the user column of the result. -/
theorem inner_join_two_users (db : DB) (un1 un2 : Option String)
    (lc1 lc2 : String) (d1 d2 : Date)
    (h : db.users = [⟨1, "John Doe", un1, lc1, d1, none⟩,
                     ⟨2, "Jane Doe", un2, lc2, d2, some 1⟩]) :
    Part8.select_users_with_referrer db = [("Jane Doe", "John Doe")] ∧
      "John Doe" ∉ (Part8.select_users_with_referrer db).map Prod.fst := by
  simp +decide [Part8.select_users_with_referrer, h, List.filter_cons]

/-- Witness for C3: the two-user reference state, the hypothesis discharged
by `rfl`. -/
theorem inner_join_two_users_witness :
    Part8.select_users_with_referrer dbTwo = [("Jane Doe", "John Doe")] ∧
      "John Doe" ∉ (Part8.select_users_with_referrer dbTwo).map Prod.fst :=
  inner_join_two_users dbTwo (some "johnny") (some "jane") "en" "en"
    ⟨2020, 1, 1⟩ ⟨2020, 1, 2⟩ rfl

/-- Claim C4: on the same two-user state, the left-outer-join query returns
exactly two rows — user 1 with the referrer column absent, user 2 with
referrer "John Doe" — keyed on the referrer identifier matching a user
identifier. -/
theorem left_join_two_users (db : DB) (un1 un2 : Option String)
    (lc1 lc2 : String) (d1 d2 : Date)
    (h : db.users = [⟨1, "John Doe", un1, lc1, d1, none⟩,
                     ⟨2, "Jane Doe", un2, lc2, d2, some 1⟩]) :
    Part8.select_all_users_and_some_referrers db =
      [("John Doe", none), ("Jane Doe", some "John Doe")] := by
  simp +decide [Part8.select_all_users_and_some_referrers, h, List.filter_cons]

/-- Witness for C4: the two-user reference state, the hypothesis discharged
by `rfl`. -/
theorem left_join_two_users_witness :
    Part8.select_all_users_and_some_referrers dbTwo =
      [("John Doe", none), ("Jane Doe", some "John Doe")] :=
  left_join_two_users dbTwo (some "johnny") (some "jane") "en" "en"
    ⟨2020, 1, 1⟩ ⟨2020, 1, 2⟩ rfl

/-- Claim C5: the emulated right join (left-outer join with the sides
swapped, the referrer alias preserved) keeps right-join semantics — for every
database state, every row of the referrer side appears in the result at least
once, and appears with the user column absent when no user's referrer_id
points to it. -/
theorem right_join_every_referrer (db : DB) (r : UserRow) (hr : r ∈ db.users) :
    (∃ urow, (urow, r.full_name) ∈ Part8.select_some_users_and_all_referrers db) ∧
    ((∀ u ∈ db.users, u.referrer_id ≠ some r.telegram_id) →
      ((none : Option String), r.full_name) ∈
        Part8.select_some_users_and_all_referrers db) := by
  have hmem : ∀ x,
      x ∈ (if (db.users.filter fun u => u.referrer_id = some r.telegram_id).isEmpty
        then [((none : Option String), r.full_name)]
        else (db.users.filter fun u => u.referrer_id = some r.telegram_id).map
          fun u => (some u.full_name, r.full_name)) →
      x ∈ Part8.select_some_users_and_all_referrers db := by
    intro x hx
    exact List.mem_flatMap.mpr ⟨r, hr, hx⟩
  constructor
  · rcases hE : db.users.filter fun u => u.referrer_id = some r.telegram_id with
      _ | ⟨u0, rest⟩
    · exact ⟨none, hmem _ (by simp [hE])⟩
    · exact ⟨some u0.full_name, hmem _ (by simp [hE])⟩
  · intro hnone
    have hE : (db.users.filter fun u => u.referrer_id = some r.telegram_id) = [] := by
      refine List.filter_eq_nil_iff.mpr ?_
      intro u hu
      simpa using hnone u hu
    exact hmem _ (by simp [hE])

/-- Witness for C5: in the two-user reference state, "Jane Doe" (whom nobody
refers to) appears in the result, with the user column absent; both
hypotheses discharged by `decide`. -/
theorem right_join_every_referrer_witness :
    (∃ urow, (urow, "Jane Doe") ∈
      Part8.select_some_users_and_all_referrers dbTwo) ∧
    ((none : Option String), "Jane Doe") ∈
      Part8.select_some_users_and_all_referrers dbTwo :=
  ⟨(right_join_every_referrer dbTwo rowJane (by decide)).1,
   (right_join_every_referrer dbTwo rowJane (by decide)).2 (by decide)⟩

/-- Claim C6: the bulk product insert returns exactly as many generated
identifiers as input records, consecutive from the sequence in input order,
and the appended product rows carry the input titles positionally; in the
driver scenario, attaching the three products to the one order makes the
three-way join yield exactly three rows, one per product title, all on order 1
for "John Doe". -/
theorem bulk_products_count_and_order (db : DB)
    (infos : List Part8.ProductInfo) (d : Date) :
    (Part8.create_new_products db infos).2.length = infos.length ∧
    (Part8.create_new_products db infos).2 =
      (List.range infos.length).map (fun i => db.next_product_id + i) ∧
    ((Part8.create_new_products db infos).1.products.drop
        db.products.length).map (fun p => p.title) =
      infos.map Part8.ProductInfo.title ∧
    Part8.show_all_users_products (Part8.main (DB.empty d)).working =
      [(1, "Product 1", "John Doe"), (1, "Product 2", "John Doe"),
       (1, "Product 3", "John Doe")] := by
  refine ⟨by simp [Part8.create_new_products], rfl, ?_, rfl⟩
  simp only [Part8.create_new_products, List.drop_left', List.length_append]
  rw [List.map_map]
  exact zip_map_fst_fn Part8.ProductInfo.title infos _ (by simp)

/-- Claim C7: for every identical database state, the Order-User join executed
through the asynchronous path yields the same (order_id, full_name) rows as
the synchronous `show_users_orders`. -/
theorem async_join_refines_sync (db : DB) :
    Part9.async_users_orders db = Part8.show_users_orders db := rfl

/-- Claim C8: the demonstration driver performs exactly the specified
statement sequence with the specified literal values — the two user inserts,
the three join reads with their rows, the order insert returning id 1, the
order listing, the three-product bulk insert returning ids 1-3, the
order-product inserts with quantity 1, and the final three-way join. -/
theorem main_driver_sequence (d : Date) :
    (Part8.main (DB.empty d)).trace =
      [Part8.Event.insertUser 1 "John Doe" (some "johnny") "en"
         ⟨2020, 1, 1⟩ none,
       Part8.Event.insertUser 2 "Jane Doe" (some "jane") "en"
         ⟨2020, 1, 2⟩ (some 1),
       Part8.Event.usersWithReferrer [("Jane Doe", "John Doe")],
       Part8.Event.allUsersAndSomeReferrers
         [("John Doe", none), ("Jane Doe", some "John Doe")],
       Part8.Event.someUsersAndAllReferrers
         [(some "Jane Doe", "John Doe"), (none, "Jane Doe")],
       Part8.Event.insertOrder 1 1,
       Part8.Event.usersOrders [(1, "John Doe")],
       Part8.Event.insertProducts
         [{ title := "Product 1", description := some "Description 1" },
          { title := "Product 2", description := some "Description 2" },
          { title := "Product 3", description := some "Description 3" }]
         [1, 2, 3],
       Part8.Event.insertOrderProducts 1 [(1, 1), (2, 1), (3, 1)],
       Part8.Event.usersProducts
         [(1, "Product 1", "John Doe"), (1, "Product 2", "John Doe"),
          (1, "Product 3", "John Doe")]] := rfl

/-- Claim C9: under the declared referential actions, deleting a user leaves
no order of that user, transitively no order_products row of those orders, and
clears every referencing user's referrer_id; deleting a product referenced by
an existing order_products row is rejected. -/
theorem delete_rules_cascade_setnull_restrict (db : DB) (t : Int) (pid : Nat)
    (href : ∃ op ∈ db.order_products, op.product_id = pid) :
    (∀ o ∈ (deleteUser db t).orders, o.user_id ≠ t) ∧
    (∀ op ∈ (deleteUser db t).order_products,
      ∀ o ∈ db.orders, o.order_id = op.order_id → o.user_id ≠ t) ∧
    (∀ u ∈ (deleteUser db t).users,
      u.telegram_id ≠ t ∧ u.referrer_id ≠ some t) ∧
    deleteProduct db pid = none := by
  refine ⟨?_, ?_, ?_, ?_⟩
  · intro o ho
    simp [deleteUser, List.mem_filter] at ho
    exact ho.2
  · intro op hop o ho heq
    simp [deleteUser, List.mem_filter, List.any_eq_true] at hop
    intro hu
    exact hop.2 o ho heq hu
  · intro u hu
    simp only [deleteUser, List.mem_map, List.mem_filter] at hu
    obtain ⟨v, ⟨hv, hvt⟩, rfl⟩ := hu
    by_cases hvr : v.referrer_id = some t
    · simp [hvr]
      simpa using hvt
    · simp [hvr]
      simpa using hvt
  · obtain ⟨op, hop, hpid⟩ := href
    simp [deleteProduct]
    exact ⟨op, hop, hpid⟩

/-- Witness for C9: deleting user 1 and product 1 in the concrete state with
one order and one order-product row; the reference hypothesis discharged by
`decide`. -/
theorem delete_rules_cascade_setnull_restrict_witness :
    (∀ o ∈ (deleteUser dbDel 1).orders, o.user_id ≠ 1) ∧
    (∀ op ∈ (deleteUser dbDel 1).order_products,
      ∀ o ∈ dbDel.orders, o.order_id = op.order_id → o.user_id ≠ 1) ∧
    (∀ u ∈ (deleteUser dbDel 1).users,
      u.telegram_id ≠ 1 ∧ u.referrer_id ≠ some 1) ∧
    deleteProduct dbDel 1 = none :=
  delete_rules_cascade_setnull_restrict dbDel 1 1 (by decide)

/-- Claim C10: the driver never commits — its trace holds no commit event, so
closing the session leaves the persistent database state unchanged, while the
selects inside the session observe the inserted rows. -/
theorem main_driver_no_commit (db0 : DB) (d : Date) :
    Part8.Session.close (Part8.main db0) = db0 ∧
    Part8.Event.commit ∉ (Part8.main db0).trace ∧
    Part8.Event.usersOrders [(1, "John Doe")] ∈
      (Part8.main (DB.empty d)).trace ∧
    Part8.Event.usersProducts
      [(1, "Product 1", "John Doe"), (1, "Product 2", "John Doe"),
       (1, "Product 3", "John Doe")] ∈ (Part8.main (DB.empty d)).trace := by
  refine ⟨rfl, ?_, ?_, ?_⟩
  · simp [Part8.main, Part8.Session.start, Part8.Session.run_create_user,
      Part8.Session.run_users_with_referrer,
      Part8.Session.run_all_users_and_some_referrers,
      Part8.Session.run_some_users_and_all_referrers,
      Part8.Session.run_create_order, Part8.Session.run_users_orders,
      Part8.Session.run_create_products,
      Part8.Session.run_add_products_to_order,
      Part8.Session.run_users_products]
  · show Part8.Event.usersOrders [(1, "John Doe")] ∈
      ([Part8.Event.insertUser 1 "John Doe" (some "johnny") "en"
          ⟨2020, 1, 1⟩ none,
        Part8.Event.insertUser 2 "Jane Doe" (some "jane") "en"
          ⟨2020, 1, 2⟩ (some 1),
        Part8.Event.usersWithReferrer [("Jane Doe", "John Doe")],
        Part8.Event.allUsersAndSomeReferrers
          [("John Doe", none), ("Jane Doe", some "John Doe")],
        Part8.Event.someUsersAndAllReferrers
          [(some "Jane Doe", "John Doe"), (none, "Jane Doe")],
        Part8.Event.insertOrder 1 1,
        Part8.Event.usersOrders [(1, "John Doe")],
        Part8.Event.insertProducts
          [{ title := "Product 1", description := some "Description 1" },
           { title := "Product 2", description := some "Description 2" },
           { title := "Product 3", description := some "Description 3" }]
          [1, 2, 3],
        Part8.Event.insertOrderProducts 1 [(1, 1), (2, 1), (3, 1)],
        Part8.Event.usersProducts
          [(1, "Product 1", "John Doe"), (1, "Product 2", "John Doe"),
           (1, "Product 3", "John Doe")]] : List Part8.Event)
    simp
  · show Part8.Event.usersProducts _ ∈
      ([Part8.Event.insertUser 1 "John Doe" (some "johnny") "en"
          ⟨2020, 1, 1⟩ none,
        Part8.Event.insertUser 2 "Jane Doe" (some "jane") "en"
          ⟨2020, 1, 2⟩ (some 1),
        Part8.Event.usersWithReferrer [("Jane Doe", "John Doe")],
        Part8.Event.allUsersAndSomeReferrers
          [("John Doe", none), ("Jane Doe", some "John Doe")],
        Part8.Event.someUsersAndAllReferrers
          [(some "Jane Doe", "John Doe"), (none, "Jane Doe")],
        Part8.Event.insertOrder 1 1,
        Part8.Event.usersOrders [(1, "John Doe")],
        Part8.Event.insertProducts
          [{ title := "Product 1", description := some "Description 1" },
           { title := "Product 2", description := some "Description 2" },
           { title := "Product 3", description := some "Description 3" }]
          [1, 2, 3],
        Part8.Event.insertOrderProducts 1 [(1, 1), (2, 1), (3, 1)],
        Part8.Event.usersProducts
          [(1, "Product 1", "John Doe"), (1, "Product 2", "John Doe"),
           (1, "Product 3", "John Doe")]] : List Part8.Event)
    simp
